import Mathlib

/-!
Shallow embedding of the session-registry / QR / pairing-code service of the
Pairing repository (variants `src/ban-md.js`, `src/server.js`,
`src/unnamed/part_000`, `src/unnamed/part_003`).

The JavaScript runtime is single-threaded and cooperative: callbacks
(event listeners, timer callbacks) run one at a time, in the order the
event loop dispatches them, and `async` functions can interleave only at
`await` suspension points.  We model:

  * registry state as an association list `sessionId -> Session`
    (JavaScript `Map`; `lookup` is `Map.get`, cons-insert is `Map.set`
    on an absent key, `filter` is `Map.delete`);
  * connection handles as natural numbers drawn from a `nextSock`
    counter: each `makeWASocket(...)` call consumes one fresh handle,
    so the counter counts how many handles were ever constructed;
  * the `/api/qr` wait phase (register a `connection.update` listener,
    arm a timeout) as a step function `stepWait` over an explicit
    per-call state, driven by a schedule of timestamped occurrences
    (`connection.update` events and the single-shot timer callback);
    `res.json(...)` calls are accumulated in `responses` so that
    "at most one response" is a statement about that list;
  * JavaScript string truthiness (`""` is falsy) and `.replace(/\D/g,"")`
    (keep characters `0`-`9` only) explicitly.
-/

/-- Result shapes of the `/api/qr` handler: `{message:"Already logged in",user}`,
`{qr: <data url of payload>}`, `{error:"QR not available yet..."}`. -/
inductive QRResult
  | loggedIn
  | qr (payload : String)
  | timeout
deriving DecidableEq, Repr

/-- What the synchronous prefix of the `/api/qr` handler does after
`createSession` returns: respond immediately, or register the
wait-for-event listener and arm the timeout. -/
inductive QRSetup
  | immediate (r : QRResult)
  | wait
deriving DecidableEq, Repr

/-- Result shapes of the `/api/pair` handler. -/
inductive PairResult
  | invalidPhone
  | loggedIn
  | code (c : String)
  | failed (e : String)
deriving DecidableEq, Repr

/-- An occurrence dispatched by the event loop during the `/api/qr` wait
phase: a `connection.update` event (with optional `qr` and `connection`
fields of the update object), or the `setTimeout` callback firing. -/
inductive Ev
  | update (uqr : Option String) (uconn : Option String)
  | timer
deriving DecidableEq, Repr

/-- Per-call state of the `/api/qr` wait phase, right after
`sock.ev.once("connection.update", handler)` (resp. `.on` in server.js)
and `setTimeout(...)` have run: the `responded` flag, whether the
handler is still registered, whether the single-shot timer has fired,
and the list of `res.json(...)` calls made so far (with their times). -/
structure WaitState where
  responded : Bool
  listenerOn : Bool
  timerDone : Bool
  responses : List (Nat × QRResult)
deriving DecidableEq, Repr

/-- State right after listener registration: no response yet, listener
registered, timer armed. -/
def initWait : WaitState := ⟨false, true, false, []⟩

/-- `phone.replace(/\D/g, "")`: keep only the characters `0`-`9`. -/
def stripNonDigits (s : String) : String := ⟨s.data.filter Char.isDigit⟩

namespace BanMd

/-- One entry of the `sessions` map of `src/ban-md.js`:
`{ sock, lastQR, lastQRAt, user, connection }`.  `sock` is the handle
number assigned when `makeWASocket` ran. -/
structure Session where
  sock : Nat
  lastQR : Option String
  lastQRAt : Nat
  connection : String
  user : Option String
deriving DecidableEq, Repr

/-- The module-level registry: the `sessions : Map` plus the counter of
connection handles constructed so far. -/
structure Registry where
  sessions : List (String × Session)
  nextSock : Nat
deriving DecidableEq, Repr

/-- `sessions.get(id)`. -/
def lookup (r : Registry) (id : String) : Option Session :=
  (r.sessions.find? (fun p => decide (p.1 = id))).map (fun p => p.2)

/-- The session object built after the awaits of `createSession`
succeed: `{ sock, lastQR: null, lastQRAt: 0, user: null, connection: "init" }`. -/
def mkSession (r : Registry) : Session :=
  ⟨r.nextSock, none, 0, "init", none⟩

/-- The resumption of `createSession` after its `await`s: construct the
socket (`makeWASocket`, consuming a fresh handle) and `sessions.set(id, s)`.
This part runs only when the initial `sessions.get` check found nothing. -/
def insertSession (r : Registry) (id : String) : Registry × Session :=
  ({ sessions := (id, mkSession r) :: r.sessions, nextSock := r.nextSock + 1 },
   mkSession r)

/-- `createSession(id)` of `src/ban-md.js` lines 29-64, run to completion
with no interleaving.  `provider` stands for the awaited steps
(`useMultiFileAuthState`, `fetchLatestBaileysVersion`, `makeWASocket`):
`Except.error e` means one of them threw.  The `sessions.set` happens
textually after all of them, so a throw aborts the call before any
mutation of the registry. -/
def createSession (r : Registry) (id : String) (provider : Except String Unit) :
    Registry × Except String Session :=
  match lookup r id with
  | some s => (r, Except.ok s)
  | none =>
    match provider with
    | Except.error e => (r, Except.error e)
    | Except.ok _ =>
      let out := insertSession r id
      (out.1, Except.ok out.2)

/-- `createSession(id)` when the awaited provider steps succeed. -/
def createSessionOk (r : Registry) (id : String) : Registry × Session :=
  match lookup r id with
  | some s => (r, s)
  | none => insertSession r id

/-- Freshness window of the cached QR: `Date.now() - lastQRAt < 60_000`. -/
def QR_TTL_MS : Nat := 60000

/-- `/api/qr` timeout bound of `src/ban-md.js`: `setTimeout(..., 10_000)`. -/
def QR_WAIT_MS : Nat := 10000

/-- The synchronous prefix of the `/api/qr` handler
(`src/ban-md.js` lines 70-96), given the session returned by
`createSession` and the current time:
`if (sock.user) return {message,user}`;
`if (lastQR && Date.now() - lastQRAt < 60_000) return {qr}`;
otherwise register the once-listener and the timeout.
JavaScript truthiness of `lastQR` requires a non-empty string. -/
def getQRSetup (s : Session) (now : Nat) : QRSetup :=
  if s.user.isSome then QRSetup.immediate QRResult.loggedIn
  else
    match s.lastQR with
    | some q =>
      if q ≠ "" ∧ now - s.lastQRAt < QR_TTL_MS then QRSetup.immediate (QRResult.qr q)
      else QRSetup.wait
    | none => QRSetup.wait

/-- The persistent `connection.update` listener registered by
`createSession` (lines 50-61): cache a truthy `update.qr` with its
timestamp, record a truthy `update.connection`, and copy `sock.user`
when it is set. -/
def sessionOnUpdate (s : Session) (uqr uconn : Option String)
    (sockUser : Option String) (now : Nat) : Session :=
  let s1 :=
    match uqr with
    | some q => if q = "" then s else { s with lastQR := some q, lastQRAt := now }
    | none => s
  let s2 :=
    match uconn with
    | some c => if c = "" then s1 else { s1 with connection := c }
    | none => s1
  match sockUser with
  | some u => { s2 with user := some u }
  | none => s2

/-- One event-loop dispatch during the `/api/qr` wait phase of
`src/ban-md.js` (lines 83-100; `src/unnamed/part_000` lines 95-113 are
the same shape with a 25 s bound).  Faithful points:
the listener was registered with `ev.once`, so it is removed when it
first fires and its body then runs both guarded branches in order;
the timeout callback only checks `responded` - it neither sets the flag
nor removes the listener. -/
def stepWait (s : WaitState) (te : Nat × Ev) : WaitState :=
  match te.2 with
  | Ev.update uqr uconn =>
    if s.listenerOn then
      let s1 := { s with listenerOn := false }
      let s2 :=
        match uqr with
        | some q =>
          if q ≠ "" ∧ s1.responded = false then
            { s1 with responded := true,
                      responses := s1.responses ++ [(te.1, QRResult.qr q)] }
          else s1
        | none => s1
      if uconn = some "open" ∧ s2.responded = false then
        { s2 with responded := true,
                  responses := s2.responses ++ [(te.1, QRResult.loggedIn)] }
      else s2
    else s
  | Ev.timer =>
    if s.timerDone then s
    else
      let s1 := { s with timerDone := true }
      if s1.responded = false then
        { s1 with responses := s1.responses ++ [(te.1, QRResult.timeout)] }
      else s1

/-- Run the wait phase over a schedule of timestamped occurrences, in
event-loop dispatch order. -/
def runWait (s : WaitState) (tes : List (Nat × Ev)) : WaitState :=
  tes.foldl stepWait s

/-- The `/api/pair/:sessionId/:phone` handler of `src/ban-md.js`
lines 105-122: strip non-digits and reject an empty result, create or
fetch the session, short-circuit when `sock.user` is set, otherwise call
`sock.requestPairingCode(clean)`.  The returned `Bool` records whether
the provider's pairing-code operation was invoked. -/
def pairEndpoint (r : Registry) (id phone : String)
    (provider : String → Except String String) : Registry × PairResult × Bool :=
  if stripNonDigits phone = "" then (r, PairResult.invalidPhone, false)
  else
    match createSessionOk r id with
    | (r1, s) =>
      if s.user.isSome then (r1, PairResult.loggedIn, false)
      else
        match provider (stripNonDigits phone) with
        | Except.ok c => (r1, PairResult.code c, true)
        | Except.error e => (r1, PairResult.failed e, true)

end BanMd

namespace ServerJs

/-- The registry of `src/server.js`: `sessions : Map sessionId -> sock`,
plus the counter of connection handles constructed so far. -/
structure Registry where
  sessions : List (String × Nat)
  nextSock : Nat
deriving DecidableEq, Repr

/-- `sessions.get(sessionId)`. -/
def lookup (r : Registry) (id : String) : Option Nat :=
  (r.sessions.find? (fun p => decide (p.1 = id))).map (fun p => p.2)

/-- `createSession(sessionId)` of `src/server.js` lines 19-47, run to
completion with no interleaving and a successful provider: return the
stored socket if present, otherwise construct a fresh handle and
`sessions.set(sessionId, sock)`. -/
def createSession (r : Registry) (id : String) : Registry × Nat :=
  match lookup r id with
  | some sock => (r, sock)
  | none =>
    ({ sessions := (id, r.nextSock) :: r.sessions, nextSock := r.nextSock + 1 },
     r.nextSock)

/-- The `connection.update` listener that `createSession` registers
(`src/server.js` lines 34-43): on `connection === "close"` it runs
`sessions.delete(sessionId)`; other updates leave the registry alone. -/
def onConnectionUpdate (r : Registry) (id : String) (conn : Option String) : Registry :=
  if conn = some "close" then
    { r with sessions := r.sessions.filter (fun p => !decide (p.1 = id)) }
  else r

end ServerJs

namespace Part003

/-- `raw.replace(/\D/g, "")` of `src/unnamed/part_003` line 76. -/
def jsDigits (s : String) : String := ⟨s.data.filter Char.isDigit⟩

/-- `s.padEnd(n, c)`: append copies of `c` until the length reaches `n`
(no-op when already at least `n`). -/
def jsPadEnd (s : String) (n : Nat) (c : Char) : String :=
  ⟨s.data ++ List.replicate (n - s.data.length) c⟩

/-- `s.slice(0, n)`: the first `n` characters. -/
def jsSlice0 (s : String) (n : Nat) : String := ⟨s.data.take n⟩

/-- The pairing-code normalization of `src/unnamed/part_003` line 76:
`raw.replace(/\D/g, "").padEnd(8, "0").slice(0, 8)`. -/
def code8 (raw : String) : String := jsSlice0 (jsPadEnd (jsDigits raw) 8 '0') 8

end Part003

/-! Helper lemmas about the association-list registries. -/

theorem BanMd.lookup_cons_self (l : List (String × BanMd.Session)) (n : Nat)
    (id : String) (s : BanMd.Session) :
    BanMd.lookup ⟨(id, s) :: l, n⟩ id = some s := by
  simp [BanMd.lookup, List.find?]

theorem ServerJs.find_delete_none (l : List (String × Nat)) (id : String) :
    (l.filter (fun p => !decide (p.1 = id))).find? (fun p => decide (p.1 = id)) = none := by
  induction l with
  | nil => rfl
  | cons a t ih =>
    by_cases h : a.1 = id
    · simp [List.filter, h, ih]
    · simp [List.filter, h, List.find?, ih]

/-! Claim theorems. -/

/-- Claim C1, evaluated at the failing schedule: in the `src/ban-md.js`
`/api/qr` wait phase, when the timeout callback is dispatched first and
a QR `connection.update` event is dispatched in the same tick, the
handler produces TWO responses: the timeout callback replies (it never
sets `responded` and never removes the once-listener), and the
still-registered listener then replies again.  This refutes
"at most one response is produced ... the loser produces no second
reply" for the ban-md.js variant (server.js sets the flag and removes
the listener in its timeout callback, so it is not affected). -/
theorem C1_banmd_double_response :
    (BanMd.runWait initWait
        [(BanMd.QR_WAIT_MS, Ev.timer),
         (BanMd.QR_WAIT_MS, Ev.update (some "QR1") none)]).responses =
      [(BanMd.QR_WAIT_MS, QRResult.timeout), (BanMd.QR_WAIT_MS, QRResult.qr "QR1")] := by
  decide

/-- Claim C2, counterexample: two `createSession("s1")` calls interleaved
at the `await` suspension points between the `sessions.get` check and
the `sessions.set` insert.  Both checks run on the initial registry and
observe `none` (first conjunct), so both calls resume with the
construction-and-insert continuation: the two calls return Sessions with
distinct connection handles (0 and 1), and two handles are constructed
(`nextSock = 2`), contradicting "two interleaved calls yield the same
Session instance, so at most one connection handle is ever created per
id". -/
theorem C2_interleaved_duplicate_sockets :
    BanMd.lookup ⟨[], 0⟩ "s1" = none ∧
    (BanMd.insertSession ⟨[], 0⟩ "s1").2.sock = 0 ∧
    (BanMd.insertSession (BanMd.insertSession ⟨[], 0⟩ "s1").1 "s1").2.sock = 1 ∧
    (BanMd.insertSession ⟨[], 0⟩ "s1").2 ≠
      (BanMd.insertSession (BanMd.insertSession ⟨[], 0⟩ "s1").1 "s1").2 ∧
    (BanMd.insertSession (BanMd.insertSession ⟨[], 0⟩ "s1").1 "s1").1.nextSock = 2 := by
  decide

/-- Claim C2 as amended: `createSession` is idempotent for calls that do
not interleave - if a live Session is already stored for `id` it is
returned with the registry unchanged, and a second completed call after
a first completed call returns exactly the Session the first call
produced, creating no further connection handle. -/
theorem C2_sequential_idempotent (r : BanMd.Registry) (id : String) :
    (∀ s, BanMd.lookup r id = some s → BanMd.createSessionOk r id = (r, s)) ∧
    BanMd.createSessionOk (BanMd.createSessionOk r id).1 id =
      ((BanMd.createSessionOk r id).1, (BanMd.createSessionOk r id).2) := by
  constructor
  · intro s h
    simp [BanMd.createSessionOk, h]
  · cases h : BanMd.lookup r id with
    | some s => simp [BanMd.createSessionOk, h]
    | none =>
      simp [BanMd.createSessionOk, h, BanMd.insertSession, BanMd.lookup_cons_self]

/-- Witness for C2_sequential_idempotent at a concrete registry. -/
theorem C2_sequential_idempotent_witness :
    BanMd.createSessionOk ⟨[("s1", ⟨0, none, 0, "init", none⟩)], 1⟩ "s1" =
      (⟨[("s1", ⟨0, none, 0, "init", none⟩)], 1⟩, ⟨0, none, 0, "init", none⟩) :=
  (C2_sequential_idempotent ⟨[("s1", ⟨0, none, 0, "init", none⟩)], 1⟩ "s1").1
    ⟨0, none, 0, "init", none⟩ (by decide)

/-- Claim C3: for a stored session whose `sock.user` is set, the
`/api/qr` handler responds "Already logged in" without registering a
wait listener, and the `/api/pair` handler (on a phone that passes
validation) responds "Already logged in" without invoking the provider's
`requestPairingCode` and without touching the registry. -/
theorem C3_authenticated_short_circuit (r : BanMd.Registry) (id phone u : String)
    (s : BanMd.Session) (provider : String → Except String String) (now : Nat)
    (hs : BanMd.lookup r id = some s) (hu : s.user = some u)
    (hp : stripNonDigits phone ≠ "") :
    BanMd.getQRSetup s now = QRSetup.immediate QRResult.loggedIn ∧
    BanMd.pairEndpoint r id phone provider = (r, PairResult.loggedIn, false) := by
  constructor
  · simp [BanMd.getQRSetup, hu]
  · simp [BanMd.pairEndpoint, hp, BanMd.createSessionOk, hs, hu]

/-- Witness for C3_authenticated_short_circuit. -/
theorem C3_witness :
    BanMd.getQRSetup ⟨0, none, 0, "open", some "u1"⟩ 5 =
      QRSetup.immediate QRResult.loggedIn ∧
    BanMd.pairEndpoint ⟨[("s1", ⟨0, none, 0, "open", some "u1"⟩)], 1⟩ "s1"
        "256700000001" (fun d => Except.ok d) =
      (⟨[("s1", ⟨0, none, 0, "open", some "u1"⟩)], 1⟩, PairResult.loggedIn, false) :=
  C3_authenticated_short_circuit ⟨[("s1", ⟨0, none, 0, "open", some "u1"⟩)], 1⟩
    "s1" "256700000001" "u1" ⟨0, none, 0, "open", some "u1"⟩ (fun d => Except.ok d) 5
    (by decide) rfl (by decide)

/-- Claim C4: after the persistent listener caches a QR payload at time
`tq`, an unauthenticated `/api/qr` call at time `now` serves the cached
payload immediately (no wait listener) iff it is within the 60 s
freshness window; a cache older than the window is never served - the
handler takes the wait path instead. -/
theorem C4_qr_cache_freshness (s : BanMd.Session) (q : String) (tq now : Nat)
    (hq : q ≠ "") (hu : s.user = none) :
    (now - tq < BanMd.QR_TTL_MS →
      BanMd.getQRSetup (BanMd.sessionOnUpdate s (some q) none none tq) now =
        QRSetup.immediate (QRResult.qr q)) ∧
    (BanMd.QR_TTL_MS ≤ now - tq →
      BanMd.getQRSetup (BanMd.sessionOnUpdate s (some q) none none tq) now =
        QRSetup.wait) := by
  constructor
  · intro hfresh
    simp [BanMd.sessionOnUpdate, BanMd.getQRSetup, hq, hu, hfresh]
  · intro hstale
    have hnot : ¬ now - tq < BanMd.QR_TTL_MS := by omega
    simp [BanMd.sessionOnUpdate, BanMd.getQRSetup, hq, hu, hnot]

/-- Witness for C4_qr_cache_freshness: QR cached at t=0, call at t=1000. -/
theorem C4_witness :
    BanMd.getQRSetup
        (BanMd.sessionOnUpdate ⟨0, none, 0, "connecting", none⟩ (some "QQ") none none 0)
        1000 =
      QRSetup.immediate (QRResult.qr "QQ") :=
  (C4_qr_cache_freshness ⟨0, none, 0, "connecting", none⟩ "QQ" 0 1000
    (by decide) rfl).1 (by decide)

/-- Claim C5: an unauthenticated session with no cached QR makes the
handler take the wait path, and when no `connection.update` event is
dispatched, the only occurrence is the single-shot timer at
`t0 + bound` (the `setTimeout` deadline), at which instant the handler
responds with the timeout error - and with no occurrence dispatched at
all, no response exists yet.  `bound` is 25000 in `src/unnamed/part_000`
and 10000 in `src/ban-md.js` and `src/server.js`. -/
theorem C5_timeout_exact (s : BanMd.Session) (t0 bound : Nat)
    (hu : s.user = none) (hq : s.lastQR = none) :
    BanMd.getQRSetup s t0 = QRSetup.wait ∧
    (BanMd.runWait initWait [(t0 + bound, Ev.timer)]).responses =
      [(t0 + bound, QRResult.timeout)] ∧
    (BanMd.runWait initWait []).responses = [] := by
  refine ⟨?_, ?_, rfl⟩
  · simp [BanMd.getQRSetup, hu, hq]
  · simp [BanMd.runWait, BanMd.stepWait, initWait]

/-- Witness for C5_timeout_exact at the standardized 25 s bound. -/
theorem C5_witness :
    BanMd.getQRSetup ⟨0, none, 0, "connecting", none⟩ 0 = QRSetup.wait ∧
    (BanMd.runWait initWait [(0 + 25000, Ev.timer)]).responses =
      [(0 + 25000, QRResult.timeout)] ∧
    (BanMd.runWait initWait []).responses = [] :=
  C5_timeout_exact ⟨0, none, 0, "connecting", none⟩ 0 25000 rfl rfl

/-- Claim C6, counterexample: the `/api/pair` handler of `src/ban-md.js`
delivers the provider's raw code unmodified - with raw code "123" the
response carries "123" (length 3), not the normalized "12300000" the
claim requires. -/
theorem C6_banmd_raw_code_counterexample :
    (BanMd.pairEndpoint ⟨[("s1", ⟨0, none, 0, "connecting", none⟩)], 1⟩ "s1"
        "1234567890" (fun _ => Except.ok "123")).2.1 = PairResult.code "123" ∧
    PairResult.code "123" ≠ PairResult.code "12300000" ∧
    ("123" : String).length ≠ 8 := by
  decide

/-- Claim C6 as amended: only the `src/unnamed/part_003` variant
normalizes the pairing code, via
`raw.replace(/\D/g,"").padEnd(8,"0").slice(0,8)`; that normalization
always yields exactly 8 characters and maps raw "123" to "12300000".
The `src/ban-md.js` and `src/unnamed/part_000` handlers deliver the raw
provider code unmodified. -/
theorem C6_part003_code8_normalized :
    (∀ raw : String, (Part003.code8 raw).length = 8) ∧
    Part003.code8 "123" = "12300000" := by
  constructor
  · intro raw
    simp [Part003.code8, Part003.jsSlice0, Part003.jsPadEnd, Part003.jsDigits,
      String.length]
    omega
  · decide

/-- Claim C7: a phone that is empty after stripping non-digits makes the
`/api/pair` handler respond with the invalid-phone error immediately:
the provider's pairing-code operation is not invoked and the registry is
untouched (the rejection happens even before `createSession`). -/
theorem C7_empty_phone_rejected (r : BanMd.Registry) (id phone : String)
    (provider : String → Except String String)
    (h : stripNonDigits phone = "") :
    BanMd.pairEndpoint r id phone provider = (r, PairResult.invalidPhone, false) := by
  simp [BanMd.pairEndpoint, h]

/-- Witness for C7_empty_phone_rejected on a digit-free phone string. -/
theorem C7_witness :
    BanMd.pairEndpoint ⟨[], 0⟩ "s1" "+-+ abc" (fun _ => Except.ok "12345678") =
      (⟨[], 0⟩, PairResult.invalidPhone, false) :=
  C7_empty_phone_rejected ⟨[], 0⟩ "s1" "+-+ abc" (fun _ => Except.ok "12345678")
    (by decide)

/-- Claim C8, evaluated at the failing schedule: in `src/ban-md.js`
(and `src/unnamed/part_000`), after the call resolves via the timeout
response, the once-listener is still registered and `responded` is still
false, and it is not inert: a later `connection.update` event makes it
produce a further response.  This refutes "the wait-for-event listener
is deregistered or rendered permanently inert once the call resolves"
for the timeout outcome (server.js calls `ev.off` on every path,
including its timeout callback). -/
theorem C8_banmd_listener_leak :
    (BanMd.runWait initWait [(BanMd.QR_WAIT_MS, Ev.timer)]).responses =
      [(BanMd.QR_WAIT_MS, QRResult.timeout)] ∧
    (BanMd.runWait initWait [(BanMd.QR_WAIT_MS, Ev.timer)]).listenerOn = true ∧
    (BanMd.runWait initWait [(BanMd.QR_WAIT_MS, Ev.timer)]).responded = false ∧
    (BanMd.stepWait (BanMd.runWait initWait [(BanMd.QR_WAIT_MS, Ev.timer)])
        (12000, Ev.update (some "QR2") none)).responses =
      [(BanMd.QR_WAIT_MS, QRResult.timeout), (12000, QRResult.qr "QR2")] := by
  decide

/-- Claim C9: when the session is not yet registered and one of the
awaited construction steps throws, `createSession` propagates the error
and the registry is returned unchanged - `sessions.set` runs only after
every fallible step has succeeded, so no Session entry is stored for the
id on failure. -/
theorem C9_failed_create_leaves_registry (r : BanMd.Registry) (id e : String)
    (h : BanMd.lookup r id = none) :
    BanMd.createSession r id (Except.error e) = (r, Except.error e) := by
  simp [BanMd.createSession, h]

/-- Witness for C9_failed_create_leaves_registry on the empty registry. -/
theorem C9_witness :
    BanMd.createSession ⟨[], 0⟩ "s1" (Except.error "boom") =
      (⟨[], 0⟩, Except.error "boom") :=
  C9_failed_create_leaves_registry ⟨[], 0⟩ "s1" "boom" rfl

/-- Claim C10: in `src/server.js`, a session registered with handle `s0`
is deleted from the registry by a `connection.update` with
`connection === "close"`, and a subsequent `createSession` for the same
id no longer finds it: it constructs a fresh handle (the next counter
value), distinct from the closed one.  The hypothesis `s0 < r.nextSock`
is the registry invariant that every stored handle was drawn from the
counter before its current value. -/
theorem C10_close_evicts_session (r : ServerJs.Registry) (id : String) (s0 : Nat)
    (h : ServerJs.lookup r id = some s0) (hfresh : s0 < r.nextSock) :
    ServerJs.lookup r id = some s0 ∧
    ServerJs.lookup (ServerJs.onConnectionUpdate r id (some "close")) id = none ∧
    (ServerJs.createSession (ServerJs.onConnectionUpdate r id (some "close")) id).2 =
      r.nextSock ∧
    (ServerJs.createSession (ServerJs.onConnectionUpdate r id (some "close")) id).2 ≠
      s0 := by
  have h2 : ServerJs.lookup ⟨r.sessions.filter (fun p => !decide (p.1 = id)), r.nextSock⟩ id = none := by
    simp [ServerJs.lookup, ServerJs.find_delete_none]
  refine ⟨h, ?_, ?_, ?_⟩
  · simpa [ServerJs.onConnectionUpdate] using h2
  · simp [ServerJs.createSession, ServerJs.onConnectionUpdate, h2]
  · simp [ServerJs.createSession, ServerJs.onConnectionUpdate, h2]
    omega

/-- Witness for C10_close_evicts_session at a one-entry registry. -/
theorem C10_witness :
    ServerJs.lookup ⟨[("s1", 0)], 1⟩ "s1" = some 0 ∧
    ServerJs.lookup (ServerJs.onConnectionUpdate ⟨[("s1", 0)], 1⟩ "s1" (some "close"))
        "s1" = none ∧
    (ServerJs.createSession
        (ServerJs.onConnectionUpdate ⟨[("s1", 0)], 1⟩ "s1" (some "close")) "s1").2 = 1 ∧
    (ServerJs.createSession
        (ServerJs.onConnectionUpdate ⟨[("s1", 0)], 1⟩ "s1" (some "close")) "s1").2 ≠ 0 :=
  C10_close_evicts_session ⟨[("s1", 0)], 1⟩ "s1" 0 (by decide) (by decide)
